import Mathlib

/-
  Verification of the OBJ geometry loader (src/src/geometry.cpp, geometry.h).

  The loader is a single-pass, character-stream state machine feeding an
  expansion pass.  We embed the C++ `std::ifstream` operations used by the
  loader (get, unget, ws-skipping, formatted int/float extraction) on an
  explicit stream record, translate `GeometryData::loadFromOBJFile` state by
  state, and translate the face-expansion / tangent pass.  Float values are
  modelled as rationals during parsing and copying (those code paths only
  move values around) and are cast to the reals for the tangent/bitangent
  arithmetic, which divides and takes square roots.
-/

namespace OBJGeom

/-- Characters accepted by `isspace` in the default locale, which is what the
`std::ws` manipulator and the formatted-input sentry skip. -/
def isSpaceChar (c : Char) : Bool :=
  c = ' ' || c = '\t' || c = '\n' || c = '\r' || c = '\x0b' || c = '\x0c'

/-- The state of a `std::ifstream` over an in-memory character sequence:
the full contents, the read position, and the eof/fail flags. -/
structure IStream where
  data : List Char
  pos : Nat
  eofbit : Bool
  failbit : Bool
deriving DecidableEq, Repr

/-- One `istream::get()` call: returns the character read (`none` for EOF)
and the updated stream.  A stream whose eofbit or failbit is set fails the
sentry check and sets failbit; reading past the end sets both flags. -/
def IStream.get (s : IStream) : Option Char × IStream :=
  if s.failbit || s.eofbit then
    (none, { s with failbit := true })
  else
    match s.data.get? s.pos with
    | some c => (some c, { s with pos := s.pos + 1 })
    | none => (none, { s with eofbit := true, failbit := true })

/-- One `istream::unget()` call: clears eofbit, then steps the position back
one character; at position zero (or on a failed stream) it sets failbit. -/
def IStream.unget (s : IStream) : IStream :=
  let t : IStream := { s with eofbit := false }
  if t.failbit then t
  else if t.pos = 0 then { t with failbit := true }
  else { t with pos := t.pos - 1 }

/-- The `std::ws` manipulator: skip whitespace; if the end of the data is
reached, set eofbit (but not failbit).  A failed or eof stream is left as is. -/
def IStream.skipWs (s : IStream) : IStream :=
  if s.failbit || s.eofbit then s
  else
    let n := ((s.data.drop s.pos).takeWhile isSpaceChar).length
    let p := s.pos + n
    if s.data.length ≤ p then { s with pos := p, eofbit := true }
    else { s with pos := p }

/-- Numeric value of a list of decimal digit characters. -/
def digitsToNat (ds : List Char) : Nat :=
  ds.foldl (fun acc c => 10 * acc + (c.toNat - '0'.toNat)) 0

/-- Formatted extraction `inStream >> x` for an `int` variable currently
holding `old`.  If the sentry fails (bad stream, or EOF reached while
skipping whitespace) the variable keeps its old value and failbit is set.
If no digits can be accumulated the variable is set to 0 (C++11) and failbit
is set.  Otherwise the sign and digits are consumed and converted; eofbit is
set when the extraction stops at the end of the data. -/
def streamReadInt (s : IStream) (old : Int) : Int × IStream :=
  if s.failbit || s.eofbit then (old, { s with failbit := true })
  else
    let s₁ := s.skipWs
    if s₁.eofbit then (old, { s₁ with failbit := true })
    else
      let rest := s₁.data.drop s₁.pos
      let sgn : Int := if rest.head? = some '-' then -1 else 1
      let signLen := if rest.head? = some '-' ∨ rest.head? = some '+' then 1 else 0
      let ds := (rest.drop signLen).takeWhile Char.isDigit
      if ds.length = 0 then
        (0, { s₁ with
              pos := s₁.pos + signLen
              failbit := true
              eofbit := decide (s₁.data.length ≤ s₁.pos + signLen) })
      else
        let p := s₁.pos + signLen + ds.length
        (sgn * (digitsToNat ds : Int),
         { s₁ with pos := p, eofbit := decide (s₁.data.length ≤ p) })

/-- The rational value denoted by a parsed floating literal: sign, integer
digits, fraction digits, exponent sign and exponent digits. -/
def ratOfParts (sgn : Int) (ip fp : List Char) (esgn : Int) (ep : List Char) : ℚ :=
  (sgn : ℚ) * ((digitsToNat ip : ℚ) + (digitsToNat fp : ℚ) / (10 : ℚ) ^ fp.length)
    * (10 : ℚ) ^ ((esgn * (digitsToNat ep : Int)))

/-- Formatted extraction `inStream >> x` for a `float` variable, modelled over
ℚ.  Grammar: optional sign, integer digits, optional point and fraction
digits, optional exponent; at least one mantissa digit is required, and an
exponent marker must be followed by at least one digit, otherwise the
conversion fails (value 0, failbit).  Sentry behaviour is as for `int`. -/
def streamReadRat (s : IStream) (old : ℚ) : ℚ × IStream :=
  if s.failbit || s.eofbit then (old, { s with failbit := true })
  else
    let s₁ := s.skipWs
    if s₁.eofbit then (old, { s₁ with failbit := true })
    else
      let rest := s₁.data.drop s₁.pos
      let sgn : Int := if rest.head? = some '-' then -1 else 1
      let signLen := if rest.head? = some '-' ∨ rest.head? = some '+' then 1 else 0
      let r₁ := rest.drop signLen
      let ip := r₁.takeWhile Char.isDigit
      let r₂ := r₁.drop ip.length
      let hasDot : Bool := r₂.head? = some '.'
      let r₃ := if hasDot then r₂.drop 1 else r₂
      let fp := if hasDot then r₃.takeWhile Char.isDigit else []
      let r₄ := r₃.drop fp.length
      let mantLen := signLen + ip.length + (if hasDot then 1 else 0) + fp.length
      if ip.length = 0 ∧ fp.length = 0 then
        (0, { s₁ with
              pos := s₁.pos + mantLen
              failbit := true
              eofbit := decide (s₁.data.length ≤ s₁.pos + mantLen) })
      else if r₄.head? = some 'e' ∨ r₄.head? = some 'E' then
        let r₅ := r₄.drop 1
        let esgn : Int := if r₅.head? = some '-' then -1 else 1
        let eSignLen := if r₅.head? = some '-' ∨ r₅.head? = some '+' then 1 else 0
        let ep := (r₅.drop eSignLen).takeWhile Char.isDigit
        if ep.length = 0 then
          (0, { s₁ with
                pos := s₁.pos + mantLen + 1 + eSignLen
                failbit := true
                eofbit := decide (s₁.data.length ≤ s₁.pos + mantLen + 1 + eSignLen) })
        else
          let p := s₁.pos + mantLen + 1 + eSignLen + ep.length
          (ratOfParts sgn ip fp esgn ep,
           { s₁ with pos := p, eofbit := decide (s₁.data.length ≤ p) })
      else
        let p := s₁.pos + mantLen
        (ratOfParts sgn ip fp 1 [],
         { s₁ with pos := p, eofbit := decide (s₁.data.length ≤ p) })

/-- `struct FaceData`: per-face corner indices, already converted to 0-based
(with -1 as the sentinel for an absent slot).  Each list has 3 entries, one
per corner. -/
structure FaceData where
  vertexIndex : List Int
  texCoordIndex : List Int
  normalIndex : List Int
deriving DecidableEq, Repr

/-- The intermediate geometry accumulated by the parsing loop
(`tempGeom` in `loadFromOBJFile`): raw attribute pools plus face records. -/
structure TempGeom where
  vertices : List ℚ
  textureCoords : List ℚ
  normals : List ℚ
  faces : List FaceData
deriving DecidableEq, Repr

/-- `enum OBJDataType`: the parser states. -/
inductive OBJDataType
  | NONE | VERTEX | TEXTURECOORD | NORMAL | FACE | COMMENT
deriving DecidableEq, Repr

/-- Diagnostic for a stream that could not be opened. -/
def msgOpenFail : String := "Unable to open obj file"

/-- Diagnostic for an unrecognized leading line character. -/
def msgParseError : String := "OBJ parse error: Expected v, f or hash at the start of the line"

/-- Diagnostic for a vp free-form geometry directive. -/
def msgFreeForm : String := "OBJ parse error: Free-form geometry is not supported, ignoring"

/-- Diagnostic for an unsupported v-prefixed data entry. -/
def msgUnsupported : String := "Unsupported data entry, ignoring"

/-- Summary line printed after a successful load. -/
def msgSuccess : String := "Successfully loaded an OBJ"

/-- The outcome of the body of one corner iteration of the FACE case: the
stream and the values of the three index temporaries `vertIndex`,
`texCoordIndex`, `normalIndex` after the iteration. -/
structure CornerResult where
  stream : IStream
  vertVar : Int
  texVar : Int
  normVar : Int
deriving DecidableEq, Repr

/-- One iteration of the corner loop in the FACE case (geometry.cpp lines
143-165): read the vertex index; if a slash follows, peek for an empty
texture slot, read the texture index when present, then read the normal
index when a second slash follows (ungetting otherwise).  The temporaries
for slots that are not read keep the values they had on entry. -/
def parseCorner (s : IStream) (vertVar texVar normVar : Int) : CornerResult :=
  let (vertVar, s) := streamReadInt s vertVar
  let (postVertexCheckChar, s) := s.get
  if postVertexCheckChar = some '/' then
    let (texCoordExistCheckChar, s) := s.get
    let s := s.unget
    let (texVar, s) :=
      if texCoordExistCheckChar ≠ some '/' then streamReadInt s texVar else (texVar, s)
    let (postTexCoordCheckChar, s) := s.get
    if postTexCoordCheckChar = some '/' then
      let (normVar, s) := streamReadInt s normVar
      ⟨s, vertVar, texVar, normVar⟩
    else
      ⟨s.unget, vertVar, texVar, normVar⟩
  else
    ⟨s, vertVar, texVar, normVar⟩

/-- The FACE case (geometry.cpp lines 135-174): the three index temporaries
start at 0, the corner loop body runs exactly three times, and after each
iteration the current temporaries minus 1 are stored into the face record
slots of that corner. -/
def parseFace (s : IStream) : IStream × FaceData :=
  let c0 := parseCorner s 0 0 0
  let c1 := parseCorner c0.stream c0.vertVar c0.texVar c0.normVar
  let c2 := parseCorner c1.stream c1.vertVar c1.texVar c1.normVar
  (c2.stream,
   { vertexIndex := [c0.vertVar - 1, c1.vertVar - 1, c2.vertVar - 1],
     texCoordIndex := [c0.texVar - 1, c1.texVar - 1, c2.texVar - 1],
     normalIndex := [c0.normVar - 1, c1.normVar - 1, c2.normVar - 1] })

/-- The full state of the parsing loop: the stream, the current
`OBJDataType`, the accumulated geometry and the diagnostics printed so far. -/
structure ParseSt where
  stream : IStream
  dataType : OBJDataType
  geom : TempGeom
  logs : List String
deriving DecidableEq, Repr

/-- One iteration of the `while(!inStream.eof())` body (the switch on
`currentDataType`, geometry.cpp lines 49-187), translated case by case. -/
def objStep (st : ParseSt) : ParseSt :=
  match st.dataType with
  | .NONE =>
    let s := st.stream.skipWs
    let (typeChar1, s) := s.get
    if s.eofbit then { st with stream := s }
    else
      let (typeChar2, s) := s.get
      if typeChar1 = some '#' then { st with stream := s, dataType := .COMMENT }
      else if typeChar1 = some 'f' then { st with stream := s, dataType := .FACE }
      else if typeChar1 ≠ some 'v' then
        { st with stream := s, logs := st.logs ++ [msgParseError] }
      else if typeChar2 = some ' ' ∨ typeChar2 = some '\t' then
        { st with stream := s, dataType := .VERTEX }
      else if typeChar2 = some 't' then { st with stream := s, dataType := .TEXTURECOORD }
      else if typeChar2 = some 'n' then { st with stream := s, dataType := .NORMAL }
      else if typeChar2 = some 'p' then
        { st with stream := s, dataType := .COMMENT, logs := st.logs ++ [msgFreeForm] }
      else
        { st with stream := s, dataType := .COMMENT, logs := st.logs ++ [msgUnsupported] }
  | .VERTEX =>
    let (x, s) := streamReadRat st.stream 0
    let (y, s) := streamReadRat s 0
    let (z, s) := streamReadRat s 0
    { st with
      stream := s
      dataType := .COMMENT
      geom := { st.geom with vertices := st.geom.vertices ++ [x, y, z] } }
  | .TEXTURECOORD =>
    let (u, s) := streamReadRat st.stream 0
    let (v, s) := streamReadRat s 0
    { st with
      stream := s
      dataType := .COMMENT
      geom := { st.geom with textureCoords := st.geom.textureCoords ++ [u, v] } }
  | .NORMAL =>
    let (x, s) := streamReadRat st.stream 0
    let (y, s) := streamReadRat s 0
    let (z, s) := streamReadRat s 0
    { st with
      stream := s
      dataType := .COMMENT
      geom := { st.geom with normals := st.geom.normals ++ [x, y, z] } }
  | .FACE =>
    let (s, face) := parseFace st.stream
    { st with
      stream := s
      dataType := .COMMENT
      geom := { st.geom with faces := st.geom.faces ++ [face] } }
  | .COMMENT =>
    let (nextChar, s) := st.stream.get
    if nextChar = some '\n' then { st with stream := s, dataType := .NONE }
    else { st with stream := s }

/-- The `while(!inStream.eof())` loop, fuelled: the loop exits exactly when
eofbit is set (the C++ loop can spin forever on a failed-but-not-eof stream;
the fuel below suffices for every run that the loop itself terminates on). -/
def objLoop : Nat → ParseSt → ParseSt
  | 0, st => st
  | Nat.succ n, st => if st.stream.eofbit then st else objLoop n (objStep st)

/-- The initial loop state over a given character sequence. -/
def initSt (input : List Char) : ParseSt :=
  { stream := { data := input, pos := 0, eofbit := false, failbit := false }
    dataType := .NONE
    geom := { vertices := [], textureCoords := [], normals := [], faces := [] }
    logs := [] }

/-- Run the parsing loop to completion on the given input.  Every loop
iteration that is not the final eof-detecting one consumes at least one
character, so `2 * length + 8` fuel is ample for all terminating runs. -/
def parseOBJ (input : List Char) : ParseSt :=
  objLoop (2 * input.length + 8) (initSt input)

/-- `class GeometryData` (geometry.h): the five flat output buffers.  The
position, texture-coordinate and normal buffers only ever receive values
copied out of the parsed pools, so they stay rational; the tangent and
bitangent buffers receive computed values and live in ℝ. -/
structure GeometryData where
  vertices : List ℚ
  textureCoords : List ℚ
  normals : List ℚ
  tangents : List ℝ
  bitangents : List ℝ

/-- A freshly constructed `GeometryData`: all five buffers empty. -/
def emptyGeometryData : GeometryData :=
  { vertices := [], textureCoords := [], normals := [], tangents := [], bitangents := [] }

/-- `pool[i]` for a signed index, as used by the expansion loop; the C++
performs no bounds check (out of range is undefined behaviour there), the
model totalizes with 0. -/
def poolAt (pool : List ℚ) (i : Int) : ℚ :=
  pool.getD i.toNat 0

/-- The `stride` consecutive pool entries starting at `stride * idx`,
i.e. one corner's worth of one attribute. -/
def cornerSlice (pool : List ℚ) (stride : Nat) (idx : Int) : List ℚ :=
  (List.range stride).map (fun i : Nat => poolAt pool ((stride : Int) * idx + (i : Int)))

/-- The nine position components a face appends (3 corners × 3 floats),
geometry.cpp lines 205-208. -/
def facePositions (pool : TempGeom) (face : FaceData) : List ℚ :=
  cornerSlice pool.vertices 3 (face.vertexIndex.getD 0 0) ++
  cornerSlice pool.vertices 3 (face.vertexIndex.getD 1 0) ++
  cornerSlice pool.vertices 3 (face.vertexIndex.getD 2 0)

/-- The six texture components a face appends when textured (3 corners × 2
floats), geometry.cpp lines 210-217. -/
def faceTexCoords (pool : TempGeom) (face : FaceData) : List ℚ :=
  cornerSlice pool.textureCoords 2 (face.texCoordIndex.getD 0 0) ++
  cornerSlice pool.textureCoords 2 (face.texCoordIndex.getD 1 0) ++
  cornerSlice pool.textureCoords 2 (face.texCoordIndex.getD 2 0)

/-- The nine normal components a face appends when it has normals,
geometry.cpp lines 218-224. -/
def faceNormals (pool : TempGeom) (face : FaceData) : List ℚ :=
  cornerSlice pool.normals 3 (face.normalIndex.getD 0 0) ++
  cornerSlice pool.normals 3 (face.normalIndex.getD 1 0) ++
  cornerSlice pool.normals 3 (face.normalIndex.getD 2 0)

/-- The tangent/bitangent computation of geometry.cpp lines 235-269: `v`
reads the nine freshly appended position floats, `t` the six freshly
appended texture floats; edge vectors and uv deltas are formed, the tangent
and bitangent obtained through the inverse uv determinant, and both are
divided by their Euclidean length. -/
noncomputable def faceTangentBitangent (v t : Nat → ℝ) : (ℝ × ℝ × ℝ) × (ℝ × ℝ × ℝ) :=
  let deltaX1 := v 3 - v 0
  let deltaY1 := v 4 - v 1
  let deltaZ1 := v 5 - v 2
  let deltaX2 := v 6 - v 0
  let deltaY2 := v 7 - v 1
  let deltaZ2 := v 8 - v 2
  let deltaU1 := t 2 - t 0
  let deltaV1 := t 3 - t 1
  let deltaU2 := t 4 - t 0
  let deltaV2 := t 5 - t 1
  let inverseDet := 1 / (deltaU1 * deltaV2 - deltaU2 * deltaV1)
  let tangentX := inverseDet * (deltaV2 * deltaX1 - deltaV1 * deltaX2)
  let tangentY := inverseDet * (deltaV2 * deltaY1 - deltaV1 * deltaY2)
  let tangentZ := inverseDet * (deltaV2 * deltaZ1 - deltaV1 * deltaZ2)
  let bitangentX := inverseDet * (deltaU1 * deltaX2 - deltaU2 * deltaX1)
  let bitangentY := inverseDet * (deltaU1 * deltaY2 - deltaU2 * deltaY1)
  let bitangentZ := inverseDet * (deltaU1 * deltaZ2 - deltaU2 * deltaZ1)
  let tangentLength := Real.sqrt (tangentX * tangentX + tangentY * tangentY + tangentZ * tangentZ)
  let bitangentLength :=
    Real.sqrt (bitangentX * bitangentX + bitangentY * bitangentY + bitangentZ * bitangentZ)
  ((tangentX / tangentLength, tangentY / tangentLength, tangentZ / tangentLength),
   (bitangentX / bitangentLength, bitangentY / bitangentLength, bitangentZ / bitangentLength))

/-- The body of the expansion loop for one face (geometry.cpp lines
198-283): append the positions, conditionally the texture coordinates and
normals (presence decided by corner 0 alone), and when both are present
compute one tangent/bitangent pair from the just-appended data (read back
at `size - 9` / `size - 6`) and append it once per corner. -/
noncomputable def appendFace (pool : TempGeom) (g : GeometryData) (face : FaceData) :
    GeometryData :=
  let hasTextureCoords : Bool := 0 ≤ face.texCoordIndex.getD 0 0
  let hasNormals : Bool := 0 ≤ face.normalIndex.getD 0 0
  let newVertices := g.vertices ++ facePositions pool face
  let newTextureCoords :=
    if hasTextureCoords then g.textureCoords ++ faceTexCoords pool face else g.textureCoords
  let newNormals := if hasNormals then g.normals ++ faceNormals pool face else g.normals
  if hasTextureCoords && hasNormals then
    let vertexStartIndex := newVertices.length - 9
    let uvStartIndex := newTextureCoords.length - 6
    let vAt : Nat → ℝ := fun k => ((newVertices.getD (vertexStartIndex + k) 0 : ℚ) : ℝ)
    let tAt : Nat → ℝ := fun k => ((newTextureCoords.getD (uvStartIndex + k) 0 : ℚ) : ℝ)
    let tb := faceTangentBitangent vAt tAt
    { vertices := newVertices
      textureCoords := newTextureCoords
      normals := newNormals
      tangents := g.tangents ++
        [tb.1.1, tb.1.2.1, tb.1.2.2, tb.1.1, tb.1.2.1, tb.1.2.2, tb.1.1, tb.1.2.1, tb.1.2.2]
      bitangents := g.bitangents ++
        [tb.2.1, tb.2.2.1, tb.2.2.2, tb.2.1, tb.2.2.1, tb.2.2.2, tb.2.1, tb.2.2.1, tb.2.2.2] }
  else
    { vertices := newVertices
      textureCoords := newTextureCoords
      normals := newNormals
      tangents := g.tangents
      bitangents := g.bitangents }

/-- The whole expansion pass: fold the per-face body over the parsed faces
in input order, pushing into the member buffers of `g`. -/
noncomputable def expandFaces (pool : TempGeom) (g : GeometryData) : GeometryData :=
  pool.faces.foldl (appendFace pool) g

/-- `GeometryData::loadFromOBJFile`: `none` models a source that fails to
open (print the diagnostic and return, touching nothing); otherwise the
parse loop runs to exhaustion and the expansion pass pushes into the member
buffers.  The second component collects everything printed. -/
noncomputable def loadFromOBJFile (file : Option (List Char)) (g : GeometryData) :
    GeometryData × List String :=
  match file with
  | none => (g, [msgOpenFail])
  | some input =>
    let st := parseOBJ input
    (expandFaces st.geom g, st.logs ++ [msgSuccess])

/-- `GeometryData::vertexCount`: `vertices.size() / 3`. -/
def vertexCount (g : GeometryData) : Nat :=
  g.vertices.length / 3

/-! ### Structural lemmas about the expansion pass -/

/-- The tangent/bitangent pair of a face, expressed directly on the data the
face appends (which is what the read-back at `size - 9` / `size - 6`
retrieves). -/
noncomputable def faceTB (pool : TempGeom) (face : FaceData) : (ℝ × ℝ × ℝ) × (ℝ × ℝ × ℝ) :=
  faceTangentBitangent (fun k => (((facePositions pool face).getD k 0 : ℚ) : ℝ))
    (fun k => (((faceTexCoords pool face).getD k 0 : ℚ) : ℝ))

/-- The nine tangent floats a face with both attributes appends: the same
triple three times. -/
noncomputable def tangentsOf (pool : TempGeom) (face : FaceData) : List ℝ :=
  [(faceTB pool face).1.1, (faceTB pool face).1.2.1, (faceTB pool face).1.2.2,
   (faceTB pool face).1.1, (faceTB pool face).1.2.1, (faceTB pool face).1.2.2,
   (faceTB pool face).1.1, (faceTB pool face).1.2.1, (faceTB pool face).1.2.2]

/-- The nine bitangent floats a face with both attributes appends. -/
noncomputable def bitangentsOf (pool : TempGeom) (face : FaceData) : List ℝ :=
  [(faceTB pool face).2.1, (faceTB pool face).2.2.1, (faceTB pool face).2.2.2,
   (faceTB pool face).2.1, (faceTB pool face).2.2.1, (faceTB pool face).2.2.2,
   (faceTB pool face).2.1, (faceTB pool face).2.2.1, (faceTB pool face).2.2.2]

/-- What one face contributes to the texture buffer. -/
def faceTexEmit (pool : TempGeom) (face : FaceData) : List ℚ :=
  if 0 ≤ face.texCoordIndex.getD 0 0 then faceTexCoords pool face else []

/-- What one face contributes to the normal buffer. -/
def faceNormEmit (pool : TempGeom) (face : FaceData) : List ℚ :=
  if 0 ≤ face.normalIndex.getD 0 0 then faceNormals pool face else []

/-- What one face contributes to the tangent buffer. -/
noncomputable def faceTanEmit (pool : TempGeom) (face : FaceData) : List ℝ :=
  if 0 ≤ face.texCoordIndex.getD 0 0 ∧ 0 ≤ face.normalIndex.getD 0 0 then
    tangentsOf pool face
  else []

/-- What one face contributes to the bitangent buffer. -/
noncomputable def faceBitanEmit (pool : TempGeom) (face : FaceData) : List ℝ :=
  if 0 ≤ face.texCoordIndex.getD 0 0 ∧ 0 ≤ face.normalIndex.getD 0 0 then
    bitangentsOf pool face
  else []

theorem cornerSlice_length (pool : List ℚ) (stride : Nat) (idx : Int) :
    (cornerSlice pool stride idx).length = stride := by
  simp only [cornerSlice, List.length_map, List.length_range]

theorem facePositions_length (pool : TempGeom) (face : FaceData) :
    (facePositions pool face).length = 9 := by
  simp [facePositions, cornerSlice_length]

theorem faceTexCoords_length (pool : TempGeom) (face : FaceData) :
    (faceTexCoords pool face).length = 6 := by
  simp [faceTexCoords, cornerSlice_length]

theorem faceNormals_length (pool : TempGeom) (face : FaceData) :
    (faceNormals pool face).length = 9 := by
  simp [faceNormals, cornerSlice_length]

theorem getD_append_len (l m : List ℚ) (d : ℚ) (n : Nat) :
    (l ++ m).getD (l.length + n) d = m.getD n d := by
  simp [List.getD_eq_getElem?_getD, List.getElem?_append_right]

/-- Closed form of the per-face expansion body: each of the five buffers
receives exactly its per-face contribution, and the tangent pair is the one
computed from the face's own nine positions and six texture floats. -/
theorem appendFace_eq (pool : TempGeom) (g : GeometryData) (face : FaceData) :
    appendFace pool g face =
      { vertices := g.vertices ++ facePositions pool face
        textureCoords := g.textureCoords ++ faceTexEmit pool face
        normals := g.normals ++ faceNormEmit pool face
        tangents := g.tangents ++ faceTanEmit pool face
        bitangents := g.bitangents ++ faceBitanEmit pool face } := by
  by_cases h1 : 0 ≤ face.texCoordIndex.getD 0 0 <;>
    by_cases h2 : 0 ≤ face.normalIndex.getD 0 0
  · have d1 : decide (0 ≤ face.texCoordIndex.getD 0 0) = true := decide_eq_true h1
    have d2 : decide (0 ≤ face.normalIndex.getD 0 0) = true := decide_eq_true h2
    simp only [appendFace, faceTexEmit, faceNormEmit, faceTanEmit, faceBitanEmit,
      tangentsOf, bitangentsOf, faceTB, d1, d2, Bool.true_and, Bool.and_self,
      eq_self_iff_true, if_true, ite_true, and_self, h1, h2, decide_True]
    simp only [List.length_append, facePositions_length, faceTexCoords_length,
      Nat.add_sub_cancel, getD_append_len]
  · have d1 : decide (0 ≤ face.texCoordIndex.getD 0 0) = true := decide_eq_true h1
    have d2 : decide (0 ≤ face.normalIndex.getD 0 0) = false := decide_eq_false h2
    simp only [appendFace, faceTexEmit, faceNormEmit, faceTanEmit, faceBitanEmit,
      d1, d2, h1, h2, Bool.and_false, Bool.false_and, Bool.true_and, Bool.and_true,
      Bool.false_eq_true, eq_self_iff_true, if_true, ite_true, if_false, ite_false,
      and_false, false_and, and_true, true_and, and_self, List.append_nil,
      decide_True, decide_False]
  · have d1 : decide (0 ≤ face.texCoordIndex.getD 0 0) = false := decide_eq_false h1
    have d2 : decide (0 ≤ face.normalIndex.getD 0 0) = true := decide_eq_true h2
    simp only [appendFace, faceTexEmit, faceNormEmit, faceTanEmit, faceBitanEmit,
      d1, d2, h1, h2, Bool.and_false, Bool.false_and, Bool.true_and, Bool.and_true,
      Bool.false_eq_true, eq_self_iff_true, if_true, ite_true, if_false, ite_false,
      and_false, false_and, and_true, true_and, and_self, List.append_nil,
      decide_True, decide_False]
  · have d1 : decide (0 ≤ face.texCoordIndex.getD 0 0) = false := decide_eq_false h1
    have d2 : decide (0 ≤ face.normalIndex.getD 0 0) = false := decide_eq_false h2
    simp only [appendFace, faceTexEmit, faceNormEmit, faceTanEmit, faceBitanEmit,
      d1, d2, h1, h2, Bool.and_false, Bool.false_and, Bool.true_and, Bool.and_true,
      Bool.false_eq_true, eq_self_iff_true, if_true, ite_true, if_false, ite_false,
      and_false, false_and, and_true, true_and, and_self, List.append_nil,
      decide_True, decide_False]

/-- Concatenation of per-face contributions over a face list. -/
def emitted {α : Type} (f : FaceData → List α) : List FaceData → List α
  | [] => []
  | face :: rest => f face ++ emitted f rest

theorem emitted_nil {α : Type} (f : FaceData → List α) : emitted f [] = [] := rfl

theorem emitted_cons {α : Type} (f : FaceData → List α) (face : FaceData)
    (rest : List FaceData) : emitted f (face :: rest) = f face ++ emitted f rest := rfl

/-- The expansion pass in closed form: every buffer of the result is the
incoming buffer followed by the concatenated per-face contributions, in face
order. -/
theorem foldl_appendFace_spec (pool : TempGeom) :
    ∀ (faces : List FaceData) (g : GeometryData),
      (List.foldl (appendFace pool) g faces).vertices
          = g.vertices ++ emitted (facePositions pool) faces ∧
      (List.foldl (appendFace pool) g faces).textureCoords
          = g.textureCoords ++ emitted (faceTexEmit pool) faces ∧
      (List.foldl (appendFace pool) g faces).normals
          = g.normals ++ emitted (faceNormEmit pool) faces ∧
      (List.foldl (appendFace pool) g faces).tangents
          = g.tangents ++ emitted (faceTanEmit pool) faces ∧
      (List.foldl (appendFace pool) g faces).bitangents
          = g.bitangents ++ emitted (faceBitanEmit pool) faces := by
  intro faces
  induction faces with
  | nil => intro g; simp [emitted_nil]
  | cons face rest ih =>
    intro g
    have hstep := appendFace_eq pool g face
    have hrec := ih (appendFace pool g face)
    simp only [List.foldl_cons]
    rw [hstep] at hrec ⊢
    dsimp only at hrec
    simp only [emitted_cons, ← List.append_assoc]
    exact hrec

/-- The same, packaged for `expandFaces`. -/
theorem expandFaces_spec (pool : TempGeom) (g : GeometryData) :
    (expandFaces pool g).vertices = g.vertices ++ emitted (facePositions pool) pool.faces ∧
    (expandFaces pool g).textureCoords
        = g.textureCoords ++ emitted (faceTexEmit pool) pool.faces ∧
    (expandFaces pool g).normals = g.normals ++ emitted (faceNormEmit pool) pool.faces ∧
    (expandFaces pool g).tangents = g.tangents ++ emitted (faceTanEmit pool) pool.faces ∧
    (expandFaces pool g).bitangents
        = g.bitangents ++ emitted (faceBitanEmit pool) pool.faces :=
  foldl_appendFace_spec pool pool.faces g

theorem emitted_positions_length (pool : TempGeom) (faces : List FaceData) :
    (emitted (facePositions pool) faces).length = 9 * faces.length := by
  induction faces with
  | nil => simp [emitted_nil]
  | cons face rest ih =>
    simp only [emitted_cons, List.length_append, List.length_cons, ih,
      facePositions_length]
    ring

/-- Predicate: the face has both texture coordinates and normals, judged by
corner 0 exactly as the expansion loop does. -/
def hasBoth (face : FaceData) : Bool :=
  decide (0 ≤ face.texCoordIndex.getD 0 0) && decide (0 ≤ face.normalIndex.getD 0 0)

theorem hasBoth_iff (face : FaceData) :
    hasBoth face = true ↔ (0 ≤ face.texCoordIndex.getD 0 0 ∧ 0 ≤ face.normalIndex.getD 0 0) := by
  simp only [hasBoth, Bool.and_eq_true, decide_eq_true_eq]

theorem tangentsOf_length (pool : TempGeom) (face : FaceData) :
    (tangentsOf pool face).length = 9 := rfl

theorem bitangentsOf_length (pool : TempGeom) (face : FaceData) :
    (bitangentsOf pool face).length = 9 := rfl

theorem emitted_tangents_length (pool : TempGeom) (faces : List FaceData) :
    (emitted (faceTanEmit pool) faces).length = 9 * faces.countP hasBoth := by
  induction faces with
  | nil => simp [emitted_nil]
  | cons face rest ih =>
    by_cases h : 0 ≤ face.texCoordIndex.getD 0 0 ∧ 0 ≤ face.normalIndex.getD 0 0
    · have hb : hasBoth face = true := (hasBoth_iff face).mpr h
      simp only [emitted_cons, List.length_append, ih, faceTanEmit, if_pos h,
        tangentsOf_length, List.countP_cons, hb, if_true, ite_true]
      ring
    · have hb : hasBoth face = false :=
        Bool.eq_false_iff.mpr (fun hcb => h ((hasBoth_iff face).mp hcb))
      simp only [emitted_cons, List.length_append, ih, faceTanEmit, if_neg h,
        List.length_nil, List.countP_cons, hb, Bool.false_eq_true, if_false, ite_false]
      omega

theorem emitted_bitangents_length (pool : TempGeom) (faces : List FaceData) :
    (emitted (faceBitanEmit pool) faces).length = 9 * faces.countP hasBoth := by
  induction faces with
  | nil => simp [emitted_nil]
  | cons face rest ih =>
    by_cases h : 0 ≤ face.texCoordIndex.getD 0 0 ∧ 0 ≤ face.normalIndex.getD 0 0
    · have hb : hasBoth face = true := (hasBoth_iff face).mpr h
      simp only [emitted_cons, List.length_append, ih, faceBitanEmit, if_pos h,
        bitangentsOf_length, List.countP_cons, hb, if_true, ite_true]
      ring
    · have hb : hasBoth face = false :=
        Bool.eq_false_iff.mpr (fun hcb => h ((hasBoth_iff face).mp hcb))
      simp only [emitted_cons, List.length_append, ih, faceBitanEmit, if_neg h,
        List.length_nil, List.countP_cons, hb, Bool.false_eq_true, if_false, ite_false]
      omega

/-- Dividing a nonzero vector by the square root of its squared norm yields
a unit vector. -/
theorem normalized_sum_sq (x y z : ℝ) (h : x * x + y * y + z * z ≠ 0) :
    x / Real.sqrt (x * x + y * y + z * z) * (x / Real.sqrt (x * x + y * y + z * z)) +
      y / Real.sqrt (x * x + y * y + z * z) * (y / Real.sqrt (x * x + y * y + z * z)) +
      z / Real.sqrt (x * x + y * y + z * z) * (z / Real.sqrt (x * x + y * y + z * z)) = 1 := by
  have hq : (0:ℝ) ≤ x * x + y * y + z * z := by
    nlinarith [mul_self_nonneg x, mul_self_nonneg y, mul_self_nonneg z]
  have hqpos : (0:ℝ) < x * x + y * y + z * z := lt_of_le_of_ne hq (Ne.symm h)
  have hs : Real.sqrt (x * x + y * y + z * z) * Real.sqrt (x * x + y * y + z * z)
      = x * x + y * y + z * z := Real.mul_self_sqrt hq
  have hspos : 0 < Real.sqrt (x * x + y * y + z * z) := Real.sqrt_pos.mpr hqpos
  field_simp

/-- A 3-stride corner slice spelled out: the three pool entries at offsets
`3*idx`, `3*idx + 1`, `3*idx + 2`. -/
theorem cornerSlice3 (pool : List ℚ) (idx : Int) :
    cornerSlice pool 3 idx
      = [poolAt pool (3 * idx), poolAt pool (3 * idx + 1), poolAt pool (3 * idx + 2)] := by
  simp only [cornerSlice, List.range_succ, List.range_zero, List.nil_append,
    List.map_append, List.map_cons, List.map_nil, List.cons_append]
  norm_num

/-- All face indices reference inside the pools: every vertex index is
nonnegative and its 3-float slice lies inside the position pool, and every
texture or normal index that is not the absence sentinel addresses a full
slice of its pool. -/
def wellFormedTemp (g : TempGeom) : Prop :=
  ∀ face ∈ g.faces,
    (∀ i ∈ face.vertexIndex, 0 ≤ i ∧ 3 * (i.toNat + 1) ≤ g.vertices.length) ∧
    (∀ i ∈ face.texCoordIndex, 0 ≤ i → 2 * (i.toNat + 1) ≤ g.textureCoords.length) ∧
    (∀ i ∈ face.normalIndex, 0 ≤ i → 3 * (i.toNat + 1) ≤ g.normals.length)

instance (g : TempGeom) : Decidable (wellFormedTemp g) := by
  unfold wellFormedTemp
  infer_instance

/-! ### Claim theorems -/

/-- Claim C6: if the source cannot be opened, `loadFromOBJFile` emits the
open-failure diagnostic and returns without producing any data — the five
buffers of the object are exactly as before the call, and on a fresh object
they are all empty. -/
theorem C6_open_failure :
    (∀ g : GeometryData, loadFromOBJFile none g = (g, [msgOpenFail])) ∧
    (loadFromOBJFile none emptyGeometryData).1.vertices = [] ∧
    (loadFromOBJFile none emptyGeometryData).1.textureCoords = [] ∧
    (loadFromOBJFile none emptyGeometryData).1.normals = [] ∧
    (loadFromOBJFile none emptyGeometryData).1.tangents = [] ∧
    (loadFromOBJFile none emptyGeometryData).1.bitangents = [] :=
  ⟨fun _ => rfl, rfl, rfl, rfl, rfl, rfl⟩

/-- Claim C3: on a well-formed input, a load into a fresh object yields a
position buffer of exactly 9 floats per parsed face (3 corners × 3
components, no sharing), so `vertexCount` is 3 times the face count. -/
theorem C3_vertex_count (input : List Char)
    (hwf : wellFormedTemp (parseOBJ input).geom) :
    (loadFromOBJFile (some input) emptyGeometryData).1.vertices.length
        = 9 * (parseOBJ input).geom.faces.length ∧
    vertexCount (loadFromOBJFile (some input) emptyGeometryData).1
        = 3 * (parseOBJ input).geom.faces.length := by
  have h := (expandFaces_spec (parseOBJ input).geom emptyGeometryData).1
  have hlen : (expandFaces (parseOBJ input).geom emptyGeometryData).vertices.length
      = 9 * (parseOBJ input).geom.faces.length := by
    rw [h]
    simp [emptyGeometryData, emitted_positions_length]
  constructor
  · simpa [loadFromOBJFile] using hlen
  · have : vertexCount (expandFaces (parseOBJ input).geom emptyGeometryData)
        = 3 * (parseOBJ input).geom.faces.length := by
      unfold vertexCount
      omega
    simpa [loadFromOBJFile] using this

/-- Witness for C3 at a concrete well-formed input. -/
theorem C3_vertex_count_witness :
    wellFormedTemp (parseOBJ "v 0 0 0\nf 1 1 1\n".toList).geom ∧
    ((loadFromOBJFile (some "v 0 0 0\nf 1 1 1\n".toList) emptyGeometryData).1.vertices.length
        = 9 * (parseOBJ "v 0 0 0\nf 1 1 1\n".toList).geom.faces.length ∧
     vertexCount (loadFromOBJFile (some "v 0 0 0\nf 1 1 1\n".toList) emptyGeometryData).1
        = 3 * (parseOBJ "v 0 0 0\nf 1 1 1\n".toList).geom.faces.length) :=
  ⟨by decide, C3_vertex_count _ (by decide)⟩

/-- Claim C10: after every load into a fresh object the tangent and
bitangent buffers have the same length, namely 9 floats for every face that
has both texture coordinates and normals (faces lacking either contribute
nothing at all), and that length is a multiple of 9. -/
theorem C10_tangent_lengths (input : List Char) :
    (loadFromOBJFile (some input) emptyGeometryData).1.tangents.length
        = (loadFromOBJFile (some input) emptyGeometryData).1.bitangents.length ∧
    (loadFromOBJFile (some input) emptyGeometryData).1.tangents.length
        = 9 * (parseOBJ input).geom.faces.countP hasBoth ∧
    9 ∣ (loadFromOBJFile (some input) emptyGeometryData).1.tangents.length := by
  have h := expandFaces_spec (parseOBJ input).geom emptyGeometryData
  have ht : (expandFaces (parseOBJ input).geom emptyGeometryData).tangents.length
      = 9 * (parseOBJ input).geom.faces.countP hasBoth := by
    rw [h.2.2.2.1]
    simp [emptyGeometryData, emitted_tangents_length]
  have hb : (expandFaces (parseOBJ input).geom emptyGeometryData).bitangents.length
      = 9 * (parseOBJ input).geom.faces.countP hasBoth := by
    rw [h.2.2.2.2]
    simp [emptyGeometryData, emitted_bitangents_length]
  refine ⟨?_, ?_, ?_⟩
  · simp only [loadFromOBJFile]
    rw [ht, hb]
  · simpa [loadFromOBJFile] using ht
  · simp only [loadFromOBJFile]
    exact ht ▸ Dvd.intro _ rfl

/-- Loading from an openable source parses the input and expands into the
member buffers of `g`; the logs are the parse diagnostics plus the summary. -/
theorem load_some_eq (input : List Char) (g : GeometryData) :
    loadFromOBJFile (some input) g
      = (expandFaces (parseOBJ input).geom g, (parseOBJ input).logs ++ [msgSuccess]) := rfl

/-- Claim C9: a load never clears the member buffers: loading into `g`
appends the expanded mesh after whatever `g` already holds, in all five
buffers, and after two successive loads into a fresh object the vertex
count is the sum of the two meshes' own counts. -/
theorem C9_second_load_appends :
    (∀ (input : List Char) (g : GeometryData),
      (loadFromOBJFile (some input) g).1.vertices
          = g.vertices ++ (loadFromOBJFile (some input) emptyGeometryData).1.vertices ∧
      (loadFromOBJFile (some input) g).1.textureCoords
          = g.textureCoords ++ (loadFromOBJFile (some input) emptyGeometryData).1.textureCoords ∧
      (loadFromOBJFile (some input) g).1.normals
          = g.normals ++ (loadFromOBJFile (some input) emptyGeometryData).1.normals ∧
      (loadFromOBJFile (some input) g).1.tangents
          = g.tangents ++ (loadFromOBJFile (some input) emptyGeometryData).1.tangents ∧
      (loadFromOBJFile (some input) g).1.bitangents
          = g.bitangents ++ (loadFromOBJFile (some input) emptyGeometryData).1.bitangents) ∧
    (∀ input₁ input₂ : List Char,
      vertexCount (loadFromOBJFile (some input₂)
          (loadFromOBJFile (some input₁) emptyGeometryData).1).1
        = vertexCount (loadFromOBJFile (some input₁) emptyGeometryData).1
          + vertexCount (loadFromOBJFile (some input₂) emptyGeometryData).1) := by
  have key : ∀ (input : List Char) (g : GeometryData),
      (loadFromOBJFile (some input) g).1.vertices
          = g.vertices ++ (loadFromOBJFile (some input) emptyGeometryData).1.vertices ∧
      (loadFromOBJFile (some input) g).1.textureCoords
          = g.textureCoords ++ (loadFromOBJFile (some input) emptyGeometryData).1.textureCoords ∧
      (loadFromOBJFile (some input) g).1.normals
          = g.normals ++ (loadFromOBJFile (some input) emptyGeometryData).1.normals ∧
      (loadFromOBJFile (some input) g).1.tangents
          = g.tangents ++ (loadFromOBJFile (some input) emptyGeometryData).1.tangents ∧
      (loadFromOBJFile (some input) g).1.bitangents
          = g.bitangents ++ (loadFromOBJFile (some input) emptyGeometryData).1.bitangents := by
    intro input g
    have hg := expandFaces_spec (parseOBJ input).geom g
    have he := expandFaces_spec (parseOBJ input).geom emptyGeometryData
    simp only [load_some_eq, emptyGeometryData]
    simp only [emptyGeometryData, List.nil_append] at he
    exact ⟨by rw [hg.1, he.1], by rw [hg.2.1, he.2.1], by rw [hg.2.2.1, he.2.2.1],
      by rw [hg.2.2.2.1, he.2.2.2.1], by rw [hg.2.2.2.2, he.2.2.2.2]⟩
  refine ⟨key, ?_⟩
  intro input₁ input₂
  have h2 := (key input₂ (loadFromOBJFile (some input₁) emptyGeometryData).1).1
  have hl1 : (loadFromOBJFile (some input₁) emptyGeometryData).1.vertices.length
      = 9 * (parseOBJ input₁).geom.faces.length := by
    simp only [load_some_eq]
    rw [(expandFaces_spec (parseOBJ input₁).geom emptyGeometryData).1]
    simp [emptyGeometryData, emitted_positions_length]
  have hl2 : (loadFromOBJFile (some input₂) emptyGeometryData).1.vertices.length
      = 9 * (parseOBJ input₂).geom.faces.length := by
    simp only [load_some_eq]
    rw [(expandFaces_spec (parseOBJ input₂).geom emptyGeometryData).1]
    simp [emptyGeometryData, emitted_positions_length]
  unfold vertexCount
  rw [h2, List.length_append]
  omega

/-- Claim C4: texture-coordinate and normal presence for a whole face is
decided solely by corner 0: if corner 0's slot is the absence sentinel, the
face emits no texture (resp. normal) entries at all — whatever corners 1 and
2 hold — and with both absent no tangent data; if corner 0's slot is
present, entries are emitted for all 3 corners (2 resp. 3 floats each). -/
theorem C4_presence_from_corner0 (pool : TempGeom) (g : GeometryData) (face : FaceData) :
    (face.texCoordIndex.getD 0 0 < 0 →
      (appendFace pool g face).textureCoords = g.textureCoords ∧
      (appendFace pool g face).tangents = g.tangents ∧
      (appendFace pool g face).bitangents = g.bitangents) ∧
    (0 ≤ face.texCoordIndex.getD 0 0 →
      (appendFace pool g face).textureCoords = g.textureCoords ++ faceTexCoords pool face ∧
      (faceTexCoords pool face).length = 6) ∧
    (face.normalIndex.getD 0 0 < 0 →
      (appendFace pool g face).normals = g.normals ∧
      (appendFace pool g face).tangents = g.tangents ∧
      (appendFace pool g face).bitangents = g.bitangents) ∧
    (0 ≤ face.normalIndex.getD 0 0 →
      (appendFace pool g face).normals = g.normals ++ faceNormals pool face ∧
      (faceNormals pool face).length = 9) := by
  rw [appendFace_eq]
  refine ⟨fun h => ?_, fun h => ?_, fun h => ?_, fun h => ?_⟩
  · have hn : ¬ 0 ≤ face.texCoordIndex.getD 0 0 := not_le.mpr h
    refine ⟨?_, ?_, ?_⟩
    · show g.textureCoords ++ faceTexEmit pool face = g.textureCoords
      rw [faceTexEmit, if_neg hn, List.append_nil]
    · show g.tangents ++ faceTanEmit pool face = g.tangents
      rw [faceTanEmit, if_neg (fun hc => hn hc.1), List.append_nil]
    · show g.bitangents ++ faceBitanEmit pool face = g.bitangents
      rw [faceBitanEmit, if_neg (fun hc => hn hc.1), List.append_nil]
  · refine ⟨?_, faceTexCoords_length pool face⟩
    show g.textureCoords ++ faceTexEmit pool face = g.textureCoords ++ faceTexCoords pool face
    rw [faceTexEmit, if_pos h]
  · have hn : ¬ 0 ≤ face.normalIndex.getD 0 0 := not_le.mpr h
    refine ⟨?_, ?_, ?_⟩
    · show g.normals ++ faceNormEmit pool face = g.normals
      rw [faceNormEmit, if_neg hn, List.append_nil]
    · show g.tangents ++ faceTanEmit pool face = g.tangents
      rw [faceTanEmit, if_neg (fun hc => hn hc.2), List.append_nil]
    · show g.bitangents ++ faceBitanEmit pool face = g.bitangents
      rw [faceBitanEmit, if_neg (fun hc => hn hc.2), List.append_nil]
  · refine ⟨?_, faceNormals_length pool face⟩
    show g.normals ++ faceNormEmit pool face = g.normals ++ faceNormals pool face
    rw [faceNormEmit, if_pos h]

/-- Witness for C4: a face whose corner 0 lacks both slots while corners 1
and 2 carry valid indices emits nothing beyond positions; a face whose
corner 0 has both emits the full per-corner data. -/
theorem C4_presence_witness :
    ((appendFace ⟨[1], [2], [3], []⟩ emptyGeometryData
        ⟨[0, 0, 0], [-1, 0, 0], [-1, 0, 0]⟩).textureCoords = emptyGeometryData.textureCoords ∧
     (appendFace ⟨[1], [2], [3], []⟩ emptyGeometryData
        ⟨[0, 0, 0], [-1, 0, 0], [-1, 0, 0]⟩).tangents = emptyGeometryData.tangents ∧
     (appendFace ⟨[1], [2], [3], []⟩ emptyGeometryData
        ⟨[0, 0, 0], [-1, 0, 0], [-1, 0, 0]⟩).bitangents = emptyGeometryData.bitangents) ∧
    ((appendFace ⟨[1], [2], [3], []⟩ emptyGeometryData
        ⟨[0, 0, 0], [-1, 0, 0], [-1, 0, 0]⟩).normals = emptyGeometryData.normals ∧
     (appendFace ⟨[1], [2], [3], []⟩ emptyGeometryData
        ⟨[0, 0, 0], [-1, 0, 0], [-1, 0, 0]⟩).tangents = emptyGeometryData.tangents ∧
     (appendFace ⟨[1], [2], [3], []⟩ emptyGeometryData
        ⟨[0, 0, 0], [-1, 0, 0], [-1, 0, 0]⟩).bitangents = emptyGeometryData.bitangents) ∧
    ((appendFace ⟨[1], [2], [3], []⟩ emptyGeometryData
        ⟨[0, 0, 0], [0, 0, 0], [0, 0, 0]⟩).textureCoords
       = emptyGeometryData.textureCoords
         ++ faceTexCoords ⟨[1], [2], [3], []⟩ ⟨[0, 0, 0], [0, 0, 0], [0, 0, 0]⟩ ∧
     (faceTexCoords ⟨[1], [2], [3], []⟩ ⟨[0, 0, 0], [0, 0, 0], [0, 0, 0]⟩).length = 6) ∧
    ((appendFace ⟨[1], [2], [3], []⟩ emptyGeometryData
        ⟨[0, 0, 0], [0, 0, 0], [0, 0, 0]⟩).normals
       = emptyGeometryData.normals
         ++ faceNormals ⟨[1], [2], [3], []⟩ ⟨[0, 0, 0], [0, 0, 0], [0, 0, 0]⟩ ∧
     (faceNormals ⟨[1], [2], [3], []⟩ ⟨[0, 0, 0], [0, 0, 0], [0, 0, 0]⟩).length = 9) :=
  ⟨(C4_presence_from_corner0 _ _ _).1 (by decide),
   (C4_presence_from_corner0 _ _ _).2.2.1 (by decide),
   (C4_presence_from_corner0 _ _ _).2.1 (by decide),
   (C4_presence_from_corner0 _ _ _).2.2.2 (by decide)⟩

/-- Claim C7: face-directive indices are 1-based in the input and stored
minus 1: `f 1 2 3` parses to 0-based position indices 0, 1, 2; a fresh load
of that file produces exactly the pool entries at offsets 3·index ..
3·index+2 for each corner, and in general the expansion appends, per
corner, the 3-float slice of the pool starting at 3 times the stored
index. -/
theorem C7_one_based_indices :
    (parseOBJ "v 2 3 4\nv 5 6 7\nv 8 9 10\nf 1 2 3\n".toList).geom.faces
        = [{ vertexIndex := [0, 1, 2], texCoordIndex := [-1, -1, -1],
             normalIndex := [-1, -1, -1] }] ∧
    (loadFromOBJFile (some "v 2 3 4\nv 5 6 7\nv 8 9 10\nf 1 2 3\n".toList)
          emptyGeometryData).1.vertices
        = [poolAt (parseOBJ "v 2 3 4\nv 5 6 7\nv 8 9 10\nf 1 2 3\n".toList).geom.vertices
             (3 * 0),
           poolAt (parseOBJ "v 2 3 4\nv 5 6 7\nv 8 9 10\nf 1 2 3\n".toList).geom.vertices
             (3 * 0 + 1),
           poolAt (parseOBJ "v 2 3 4\nv 5 6 7\nv 8 9 10\nf 1 2 3\n".toList).geom.vertices
             (3 * 0 + 2),
           poolAt (parseOBJ "v 2 3 4\nv 5 6 7\nv 8 9 10\nf 1 2 3\n".toList).geom.vertices
             (3 * 1),
           poolAt (parseOBJ "v 2 3 4\nv 5 6 7\nv 8 9 10\nf 1 2 3\n".toList).geom.vertices
             (3 * 1 + 1),
           poolAt (parseOBJ "v 2 3 4\nv 5 6 7\nv 8 9 10\nf 1 2 3\n".toList).geom.vertices
             (3 * 1 + 2),
           poolAt (parseOBJ "v 2 3 4\nv 5 6 7\nv 8 9 10\nf 1 2 3\n".toList).geom.vertices
             (3 * 2),
           poolAt (parseOBJ "v 2 3 4\nv 5 6 7\nv 8 9 10\nf 1 2 3\n".toList).geom.vertices
             (3 * 2 + 1),
           poolAt (parseOBJ "v 2 3 4\nv 5 6 7\nv 8 9 10\nf 1 2 3\n".toList).geom.vertices
             (3 * 2 + 2)] ∧
    (∀ (pool : TempGeom) (g : GeometryData) (face : FaceData),
      (appendFace pool g face).vertices
        = g.vertices
          ++ (cornerSlice pool.vertices 3 (face.vertexIndex.getD 0 0)
              ++ cornerSlice pool.vertices 3 (face.vertexIndex.getD 1 0)
              ++ cornerSlice pool.vertices 3 (face.vertexIndex.getD 2 0))) ∧
    (∀ (pool : List ℚ) (idx : Int),
      cornerSlice pool 3 idx
        = [poolAt pool (3 * idx), poolAt pool (3 * idx + 1), poolAt pool (3 * idx + 2)]) := by
  have hfaces : (parseOBJ "v 2 3 4\nv 5 6 7\nv 8 9 10\nf 1 2 3\n".toList).geom.faces
      = [{ vertexIndex := [0, 1, 2], texCoordIndex := [-1, -1, -1],
           normalIndex := [-1, -1, -1] }] := by decide
  refine ⟨hfaces, ?_, ?_, fun pool idx => cornerSlice3 pool idx⟩
  · simp only [load_some_eq]
    rw [(expandFaces_spec (parseOBJ "v 2 3 4\nv 5 6 7\nv 8 9 10\nf 1 2 3\n".toList).geom
      emptyGeometryData).1, hfaces]
    simp only [emptyGeometryData, List.nil_append, emitted_cons, emitted_nil,
      List.append_nil, facePositions, cornerSlice3]
    norm_num [List.getD]
  · intro pool g face
    rw [appendFace_eq]
    rfl

/-- Claim C8: a face line carrying more than 3 corner specifications: the
parser reads exactly the first 3 corners into one face record; everything
after them is consumed by the skip-to-end-of-line state, which never
modifies the accumulated geometry or diagnostics, so subsequent lines parse
normally. -/
theorem C8_extra_corners_truncated :
    (parseOBJ "f 1 2 3 4 5\nv 7 8 9\n".toList).geom.faces
        = [{ vertexIndex := [0, 1, 2], texCoordIndex := [-1, -1, -1],
             normalIndex := [-1, -1, -1] }] ∧
    (parseOBJ "f 1 2 3 4 5\nv 7 8 9\n".toList).geom.vertices.length = 3 ∧
    (parseOBJ "f 1 2 3 4 5\nv 7 8 9\n".toList).logs = [] ∧
    (∀ (s : IStream) (geom : TempGeom) (logs : List String),
      (objStep { stream := s, dataType := OBJDataType.COMMENT, geom := geom,
                 logs := logs }).geom = geom ∧
      (objStep { stream := s, dataType := OBJDataType.COMMENT, geom := geom,
                 logs := logs }).logs = logs) := by
  refine ⟨by decide, by decide, by decide, ?_⟩
  intro s geom logs
  simp only [objStep]
  rcases hg : s.get with ⟨c, s₂⟩
  by_cases hc : c = some '\n' <;> simp [hg, hc]

/-- If the character right after the consumed vertex integer is not a slash,
the corner-loop body leaves the texture and normal temporaries exactly as
they were on entry and records the newly read vertex value. -/
theorem parseCorner_no_slash (s : IStream) (vertVar texVar normVar v₁ : Int)
    (s₁ : IStream) (c : Option Char) (s₂ : IStream)
    (hread : streamReadInt s vertVar = (v₁, s₁))
    (hget : s₁.get = (c, s₂)) (hc : c ≠ some '/') :
    parseCorner s vertVar texVar normVar = ⟨s₂, v₁, texVar, normVar⟩ := by
  unfold parseCorner
  rw [hread]
  dsimp only
  rw [hget]
  dsimp only
  rw [if_neg hc]

/-- A corner of shape `index/tex` (slash, texture index, no second slash):
the normal temporary is left exactly as it was on entry. -/
theorem parseCorner_slash_no_second (s : IStream) (vertVar texVar normVar v₁ : Int)
    (s₁ s₂ : IStream) (c₂ : Option Char) (s₃ : IStream) (t₁ : Int) (s₅ : IStream)
    (c₃ : Option Char) (s₆ : IStream)
    (hread : streamReadInt s vertVar = (v₁, s₁))
    (hget1 : s₁.get = (some '/', s₂))
    (hget2 : s₂.get = (c₂, s₃)) (hc₂ : c₂ ≠ some '/')
    (htex : streamReadInt s₃.unget texVar = (t₁, s₅))
    (hget3 : s₅.get = (c₃, s₆)) (hc₃ : c₃ ≠ some '/') :
    parseCorner s vertVar texVar normVar = ⟨s₆.unget, v₁, t₁, normVar⟩ := by
  unfold parseCorner
  rw [hread]
  dsimp only
  rw [hget1]
  dsimp only
  rw [if_pos rfl, hget2]
  dsimp only
  rw [if_pos hc₂, htex]
  dsimp only
  rw [hget3]
  dsimp only
  rw [if_neg hc₃]

/-- A corner of shape `index//normal` (empty texture slot between two
slashes): the texture temporary is left exactly as it was on entry. -/
theorem parseCorner_double_slash (s : IStream) (vertVar texVar normVar v₁ : Int)
    (s₁ s₂ s₃ s₅ : IStream) (n₁ : Int) (s₆ : IStream)
    (hread : streamReadInt s vertVar = (v₁, s₁))
    (hget1 : s₁.get = (some '/', s₂))
    (hget2 : s₂.get = (some '/', s₃))
    (hget3 : s₃.unget.get = (some '/', s₅))
    (hnorm : streamReadInt s₅ normVar = (n₁, s₆)) :
    parseCorner s vertVar texVar normVar = ⟨s₆, v₁, texVar, n₁⟩ := by
  unfold parseCorner
  rw [hread]
  dsimp only
  rw [hget1]
  dsimp only
  rw [if_pos rfl, hget2]
  dsimp only
  rw [if_neg (show ¬ ((some '/' : Option Char) ≠ some '/') from fun h => h rfl)]
  dsimp only
  rw [hget3]
  dsimp only
  rw [if_pos rfl, hnorm]

/-- Claim C1 counterexample: in `f 1/2/3 4 5` corners 1 and 2 omit both
optional slots, yet the parser stores 1 and 2 for them — the previous
corner's temporaries minus one — not the -1 the claim predicts. -/
theorem C1_counterexample :
    (parseOBJ "f 1/2/3 4 5\n".toList).geom.faces
        = [{ vertexIndex := [0, 3, 4], texCoordIndex := [1, 1, 1],
             normalIndex := [2, 2, 2] }] ∧
    ¬ ((parseOBJ "f 1/2/3 4 5\n".toList).geom.faces.getD 0
          { vertexIndex := [], texCoordIndex := [], normalIndex := [] }).texCoordIndex.getD 1 0
        = -1 := by decide

/-- Claim C1 (amended): the index temporaries are initialized to zero once
per face, not per corner, and a corner stores the current temporaries minus
1, so an omitted slot stores -1 exactly when no earlier corner of the same
face supplied it.  Covered corner shapes: no slash at all (both temporaries
untouched), `index/tex` with no second slash (normal temporary untouched),
and `index//normal` with an empty texture slot (texture temporary
untouched); for corner 0 the untouched temporaries are still 0, so its
omitted slots store -1. -/
theorem C1_absent_slot_sentinel :
    (∀ (s : IStream) (vertVar texVar normVar v₁ : Int) (s₁ : IStream) (c : Option Char)
        (s₂ : IStream),
      streamReadInt s vertVar = (v₁, s₁) →
      s₁.get = (c, s₂) →
      c ≠ some '/' →
      parseCorner s vertVar texVar normVar = ⟨s₂, v₁, texVar, normVar⟩) ∧
    (∀ (s : IStream) (vertVar texVar normVar v₁ : Int) (s₁ s₂ : IStream) (c₂ : Option Char)
        (s₃ : IStream) (t₁ : Int) (s₅ : IStream) (c₃ : Option Char) (s₆ : IStream),
      streamReadInt s vertVar = (v₁, s₁) →
      s₁.get = (some '/', s₂) →
      s₂.get = (c₂, s₃) →
      c₂ ≠ some '/' →
      streamReadInt s₃.unget texVar = (t₁, s₅) →
      s₅.get = (c₃, s₆) →
      c₃ ≠ some '/' →
      parseCorner s vertVar texVar normVar = ⟨s₆.unget, v₁, t₁, normVar⟩) ∧
    (∀ (s : IStream) (vertVar texVar normVar v₁ : Int) (s₁ s₂ s₃ s₅ : IStream) (n₁ : Int)
        (s₆ : IStream),
      streamReadInt s vertVar = (v₁, s₁) →
      s₁.get = (some '/', s₂) →
      s₂.get = (some '/', s₃) →
      s₃.unget.get = (some '/', s₅) →
      streamReadInt s₅ normVar = (n₁, s₆) →
      parseCorner s vertVar texVar normVar = ⟨s₆, v₁, texVar, n₁⟩) ∧
    (∀ (s : IStream) (v₁ : Int) (s₁ : IStream) (c : Option Char) (s₂ : IStream),
      streamReadInt s 0 = (v₁, s₁) →
      s₁.get = (c, s₂) →
      c ≠ some '/' →
      (parseFace s).2.texCoordIndex.getD 0 0 = -1 ∧
      (parseFace s).2.normalIndex.getD 0 0 = -1) ∧
    (∀ (s : IStream) (v₁ : Int) (s₁ s₂ : IStream) (c₂ : Option Char) (s₃ : IStream)
        (t₁ : Int) (s₅ : IStream) (c₃ : Option Char) (s₆ : IStream),
      streamReadInt s 0 = (v₁, s₁) →
      s₁.get = (some '/', s₂) →
      s₂.get = (c₂, s₃) →
      c₂ ≠ some '/' →
      streamReadInt s₃.unget 0 = (t₁, s₅) →
      s₅.get = (c₃, s₆) →
      c₃ ≠ some '/' →
      (parseFace s).2.normalIndex.getD 0 0 = -1) ∧
    (∀ (s : IStream) (v₁ : Int) (s₁ s₂ s₃ s₅ : IStream) (n₁ : Int) (s₆ : IStream),
      streamReadInt s 0 = (v₁, s₁) →
      s₁.get = (some '/', s₂) →
      s₂.get = (some '/', s₃) →
      s₃.unget.get = (some '/', s₅) →
      streamReadInt s₅ 0 = (n₁, s₆) →
      (parseFace s).2.texCoordIndex.getD 0 0 = -1) := by
  refine ⟨parseCorner_no_slash, parseCorner_slash_no_second, parseCorner_double_slash,
    ?_, ?_, ?_⟩
  · intro s v₁ s₁ c s₂ h1 h2 h3
    have hc0 : parseCorner s 0 0 0 = ⟨s₂, v₁, 0, 0⟩ :=
      parseCorner_no_slash s 0 0 0 v₁ s₁ c s₂ h1 h2 h3
    unfold parseFace
    rw [hc0]
    constructor <;> simp
  · intro s v₁ s₁ s₂ c₂ s₃ t₁ s₅ c₃ s₆ h1 h2 h3 h4 h5 h6 h7
    have hc0 : parseCorner s 0 0 0 = ⟨s₆.unget, v₁, t₁, 0⟩ :=
      parseCorner_slash_no_second s 0 0 0 v₁ s₁ s₂ c₂ s₃ t₁ s₅ c₃ s₆ h1 h2 h3 h4 h5 h6 h7
    unfold parseFace
    rw [hc0]
    simp
  · intro s v₁ s₁ s₂ s₃ s₅ n₁ s₆ h1 h2 h3 h4 h5
    have hc0 : parseCorner s 0 0 0 = ⟨s₆, v₁, 0, n₁⟩ :=
      parseCorner_double_slash s 0 0 0 v₁ s₁ s₂ s₃ s₅ n₁ s₆ h1 h2 h3 h4 h5
    unfold parseFace
    rw [hc0]
    simp

/-- Witness for the amended C1, one concrete corner per covered shape: a
corner with no slash, a corner `1/2` without a second slash, a corner
`1//3` with an empty texture slot, and faces whose corner 0 has each shape,
storing -1 for the omitted slots. -/
theorem C1_absent_slot_sentinel_witness :
    parseCorner { data := "7 8 9".toList, pos := 0, eofbit := false, failbit := false } 5 3 4
        = ⟨{ data := "7 8 9".toList, pos := 2, eofbit := false, failbit := false }, 7, 3, 4⟩ ∧
    parseCorner { data := "1/2 5".toList, pos := 0, eofbit := false, failbit := false } 9 7 4
        = ⟨{ data := "1/2 5".toList, pos := 3, eofbit := false, failbit := false }, 1, 2, 4⟩ ∧
    parseCorner { data := "1//3 5".toList, pos := 0, eofbit := false, failbit := false } 9 7 4
        = ⟨{ data := "1//3 5".toList, pos := 4, eofbit := false, failbit := false }, 1, 7, 3⟩ ∧
    (parseFace
        { data := "7 8 9".toList, pos := 0, eofbit := false, failbit := false }).2.texCoordIndex.getD 0 0
      = -1 ∧
    (parseFace
        { data := "7 8 9".toList, pos := 0, eofbit := false, failbit := false }).2.normalIndex.getD 0 0
      = -1 ∧
    (parseFace
        { data := "1/2 3/4 5/6".toList, pos := 0, eofbit := false, failbit := false }).2.normalIndex.getD 0 0
      = -1 ∧
    (parseFace
        { data := "1//3 4//6 7//9".toList, pos := 0, eofbit := false, failbit := false }).2.texCoordIndex.getD 0 0
      = -1 :=
  ⟨C1_absent_slot_sentinel.1 _ 5 3 4 7
      { data := "7 8 9".toList, pos := 1, eofbit := false, failbit := false } (some ' ')
      { data := "7 8 9".toList, pos := 2, eofbit := false, failbit := false }
      (by decide) (by decide) (by decide),
   C1_absent_slot_sentinel.2.1 _ 9 7 4 1
      { data := "1/2 5".toList, pos := 1, eofbit := false, failbit := false }
      { data := "1/2 5".toList, pos := 2, eofbit := false, failbit := false } (some '2')
      { data := "1/2 5".toList, pos := 3, eofbit := false, failbit := false } 2
      { data := "1/2 5".toList, pos := 3, eofbit := false, failbit := false } (some ' ')
      { data := "1/2 5".toList, pos := 4, eofbit := false, failbit := false }
      (by decide) (by decide) (by decide) (by decide) (by decide) (by decide) (by decide),
   C1_absent_slot_sentinel.2.2.1 _ 9 7 4 1
      { data := "1//3 5".toList, pos := 1, eofbit := false, failbit := false }
      { data := "1//3 5".toList, pos := 2, eofbit := false, failbit := false }
      { data := "1//3 5".toList, pos := 3, eofbit := false, failbit := false }
      { data := "1//3 5".toList, pos := 3, eofbit := false, failbit := false } 3
      { data := "1//3 5".toList, pos := 4, eofbit := false, failbit := false }
      (by decide) (by decide) (by decide) (by decide) (by decide),
   (C1_absent_slot_sentinel.2.2.2.1 _ 7
      { data := "7 8 9".toList, pos := 1, eofbit := false, failbit := false } (some ' ')
      { data := "7 8 9".toList, pos := 2, eofbit := false, failbit := false }
      (by decide) (by decide) (by decide)).1,
   (C1_absent_slot_sentinel.2.2.2.1 _ 7
      { data := "7 8 9".toList, pos := 1, eofbit := false, failbit := false } (some ' ')
      { data := "7 8 9".toList, pos := 2, eofbit := false, failbit := false }
      (by decide) (by decide) (by decide)).2,
   C1_absent_slot_sentinel.2.2.2.2.1 _ 1
      { data := "1/2 3/4 5/6".toList, pos := 1, eofbit := false, failbit := false }
      { data := "1/2 3/4 5/6".toList, pos := 2, eofbit := false, failbit := false } (some '2')
      { data := "1/2 3/4 5/6".toList, pos := 3, eofbit := false, failbit := false } 2
      { data := "1/2 3/4 5/6".toList, pos := 3, eofbit := false, failbit := false } (some ' ')
      { data := "1/2 3/4 5/6".toList, pos := 4, eofbit := false, failbit := false }
      (by decide) (by decide) (by decide) (by decide) (by decide) (by decide) (by decide),
   C1_absent_slot_sentinel.2.2.2.2.2 _ 1
      { data := "1//3 4//6 7//9".toList, pos := 1, eofbit := false, failbit := false }
      { data := "1//3 4//6 7//9".toList, pos := 2, eofbit := false, failbit := false }
      { data := "1//3 4//6 7//9".toList, pos := 3, eofbit := false, failbit := false }
      { data := "1//3 4//6 7//9".toList, pos := 3, eofbit := false, failbit := false } 3
      { data := "1//3 4//6 7//9".toList, pos := 4, eofbit := false, failbit := false }
      (by decide) (by decide) (by decide) (by decide) (by decide)⟩

/-- Claim C2 counterexample: for the input line `x 1 v 2 3 4`, the parser
does not skip the rest of the line after the first diagnostic: it emits a
second diagnostic for `1` and then parses `v 2 3 4` — still inside the bad
line — as a vertex directive, so the vertex pool receives 3 floats and two
diagnostics are printed, where the claim predicts zero floats and exactly
one diagnostic. -/
theorem C2_counterexample :
    (parseOBJ "x 1 v 2 3 4\n".toList).geom.vertices.length = 3 ∧
    (parseOBJ "x 1 v 2 3 4\n".toList).logs = [msgParseError, msgParseError] := by decide

/-- Claim C2 (amended): on a leading character other than v, f or the
comment mark, the parser logs one parse-error diagnostic naming the two
characters it consumed and stays in the line-start state without skipping
anything further: the remainder of the line is reinterpreted as if it began
a new line (possibly producing further diagnostics, or even directives);
the load is not aborted. -/
theorem C2_unrecognized_leading_char :
    ∀ (s : IStream) (geom : TempGeom) (logs : List String) (c₁ : Char) (s₂ : IStream)
      (c₂ : Option Char) (s₃ : IStream),
      s.skipWs.get = (some c₁, s₂) →
      s₂.eofbit = false →
      s₂.get = (c₂, s₃) →
      c₁ ≠ '#' → c₁ ≠ 'f' → c₁ ≠ 'v' →
      objStep { stream := s, dataType := OBJDataType.NONE, geom := geom, logs := logs }
        = { stream := s₃, dataType := OBJDataType.NONE, geom := geom,
            logs := logs ++ [msgParseError] } := by
  intro s geom logs c₁ s₂ c₂ s₃ h1 he h2 hc1 hc2 hc3
  simp only [objStep]
  rw [h1]
  dsimp only
  rw [he, h2]
  simp [Option.some.injEq, hc1, hc2, hc3]

/-- Witness for the amended C2 at a line starting with `x`. -/
theorem C2_unrecognized_leading_char_witness :
    IStream.get (IStream.skipWs
        { data := "x 1\n".toList, pos := 0, eofbit := false, failbit := false })
      = (some 'x', { data := "x 1\n".toList, pos := 1, eofbit := false, failbit := false }) ∧
    ({ data := "x 1\n".toList, pos := 1, eofbit := false, failbit := false } : IStream).eofbit
      = false ∧
    objStep { stream := { data := "x 1\n".toList, pos := 0, eofbit := false, failbit := false },
              dataType := OBJDataType.NONE,
              geom := { vertices := [], textureCoords := [], normals := [], faces := [] },
              logs := [] }
      = { stream := { data := "x 1\n".toList, pos := 2, eofbit := false, failbit := false },
          dataType := OBJDataType.NONE,
          geom := { vertices := [], textureCoords := [], normals := [], faces := [] },
          logs := [msgParseError] } :=
  ⟨by decide, by decide,
   C2_unrecognized_leading_char _ _ _ 'x'
     { data := "x 1\n".toList, pos := 1, eofbit := false, failbit := false } (some ' ')
     { data := "x 1\n".toList, pos := 2, eofbit := false, failbit := false }
     (by decide) (by decide) (by decide) (by decide) (by decide) (by decide)⟩

/-- Claim C5: for a face that (per the corner-0 test) has both texture
coordinates and normals, exactly one tangent/bitangent pair is computed
from that face's freshly appended 9 corner positions and 6 texture floats
by the edge/uv-delta formula — edges from corner 0, uv deltas from corner
0, the inverse uv determinant, each vector divided by its Euclidean length
— and the identical pair is written for all 3 corners: exactly 9 tangent
floats and 9 bitangent floats forming 3 identical triples; the stored
vectors have unit squared norm whenever the pre-normalization vector is
nonzero. -/
theorem C5_flat_tangent_pair (pool : TempGeom) (g : GeometryData) (face : FaceData)
    (h1 : 0 ≤ face.texCoordIndex.getD 0 0) (h2 : 0 ≤ face.normalIndex.getD 0 0) :
    let p : Nat → ℝ := fun k => (((facePositions pool face).getD k 0 : ℚ) : ℝ)
    let t : Nat → ℝ := fun k => (((faceTexCoords pool face).getD k 0 : ℚ) : ℝ)
    let inverseDet := 1 / ((t 2 - t 0) * (t 5 - t 1) - (t 4 - t 0) * (t 3 - t 1))
    let tgx := inverseDet * ((t 5 - t 1) * (p 3 - p 0) - (t 3 - t 1) * (p 6 - p 0))
    let tgy := inverseDet * ((t 5 - t 1) * (p 4 - p 1) - (t 3 - t 1) * (p 7 - p 1))
    let tgz := inverseDet * ((t 5 - t 1) * (p 5 - p 2) - (t 3 - t 1) * (p 8 - p 2))
    let btx := inverseDet * ((t 2 - t 0) * (p 6 - p 0) - (t 4 - t 0) * (p 3 - p 0))
    let bty := inverseDet * ((t 2 - t 0) * (p 7 - p 1) - (t 4 - t 0) * (p 4 - p 1))
    let btz := inverseDet * ((t 2 - t 0) * (p 8 - p 2) - (t 4 - t 0) * (p 5 - p 2))
    let tl := Real.sqrt (tgx * tgx + tgy * tgy + tgz * tgz)
    let bl := Real.sqrt (btx * btx + bty * bty + btz * btz)
    (appendFace pool g face).tangents
        = g.tangents ++ [tgx / tl, tgy / tl, tgz / tl, tgx / tl, tgy / tl, tgz / tl,
                         tgx / tl, tgy / tl, tgz / tl] ∧
    (appendFace pool g face).bitangents
        = g.bitangents ++ [btx / bl, bty / bl, btz / bl, btx / bl, bty / bl, btz / bl,
                           btx / bl, bty / bl, btz / bl] ∧
    (tgx * tgx + tgy * tgy + tgz * tgz ≠ 0 →
      tgx / tl * (tgx / tl) + tgy / tl * (tgy / tl) + tgz / tl * (tgz / tl) = 1) ∧
    (btx * btx + bty * bty + btz * btz ≠ 0 →
      btx / bl * (btx / bl) + bty / bl * (bty / bl) + btz / bl * (btz / bl) = 1) := by
  intro p t inverseDet tgx tgy tgz btx bty btz tl bl
  refine ⟨?_, ?_,
    fun hne => normalized_sum_sq tgx tgy tgz hne,
    fun hne => normalized_sum_sq btx bty btz hne⟩
  · rw [appendFace_eq]
    show g.tangents ++ faceTanEmit pool face = _
    rw [faceTanEmit, if_pos ⟨h1, h2⟩]
    rfl
  · rw [appendFace_eq]
    show g.bitangents ++ faceBitanEmit pool face = _
    rw [faceBitanEmit, if_pos ⟨h1, h2⟩]
    rfl

/-- Witness for C5 at the reference triangle: positions (0,0,0), (1,0,0),
(0,1,0) with uvs (0,0), (1,0), (0,1) give tangent (1,0,0) and bitangent
(0,1,0) for every corner. -/
theorem C5_flat_tangent_pair_witness :
    (0 ≤ (({ vertexIndex := [0, 1, 2], texCoordIndex := [0, 1, 2],
             normalIndex := [0, 1, 2] } : FaceData)).texCoordIndex.getD 0 0) ∧
    (0 ≤ (({ vertexIndex := [0, 1, 2], texCoordIndex := [0, 1, 2],
             normalIndex := [0, 1, 2] } : FaceData)).normalIndex.getD 0 0) ∧
    (appendFace
        { vertices := [0, 0, 0, 1, 0, 0, 0, 1, 0], textureCoords := [0, 0, 1, 0, 0, 1],
          normals := [0, 0, 1, 0, 0, 1, 0, 0, 1], faces := [] }
        emptyGeometryData
        { vertexIndex := [0, 1, 2], texCoordIndex := [0, 1, 2],
          normalIndex := [0, 1, 2] }).tangents
      = [1, 0, 0, 1, 0, 0, 1, 0, 0] ∧
    (appendFace
        { vertices := [0, 0, 0, 1, 0, 0, 0, 1, 0], textureCoords := [0, 0, 1, 0, 0, 1],
          normals := [0, 0, 1, 0, 0, 1, 0, 0, 1], faces := [] }
        emptyGeometryData
        { vertexIndex := [0, 1, 2], texCoordIndex := [0, 1, 2],
          normalIndex := [0, 1, 2] }).bitangents
      = [0, 1, 0, 0, 1, 0, 0, 1, 0] := by
  have h := C5_flat_tangent_pair
    { vertices := [0, 0, 0, 1, 0, 0, 0, 1, 0], textureCoords := [0, 0, 1, 0, 0, 1],
      normals := [0, 0, 1, 0, 0, 1, 0, 0, 1], faces := [] }
    emptyGeometryData
    { vertexIndex := [0, 1, 2], texCoordIndex := [0, 1, 2], normalIndex := [0, 1, 2] }
    (by decide) (by decide)
  simp only [] at h
  have hfp : facePositions
      { vertices := [0, 0, 0, 1, 0, 0, 0, 1, 0], textureCoords := [0, 0, 1, 0, 0, 1],
        normals := [0, 0, 1, 0, 0, 1, 0, 0, 1], faces := [] }
      { vertexIndex := [0, 1, 2], texCoordIndex := [0, 1, 2], normalIndex := [0, 1, 2] }
      = [0, 0, 0, 1, 0, 0, 0, 1, 0] := by decide
  have hft : faceTexCoords
      { vertices := [0, 0, 0, 1, 0, 0, 0, 1, 0], textureCoords := [0, 0, 1, 0, 0, 1],
        normals := [0, 0, 1, 0, 0, 1, 0, 0, 1], faces := [] }
      { vertexIndex := [0, 1, 2], texCoordIndex := [0, 1, 2], normalIndex := [0, 1, 2] }
      = [0, 0, 1, 0, 0, 1] := by decide
  rw [hfp, hft] at h
  have e0 : (([0, 0, 1, 0, 0, 1] : List ℚ)).getD 0 0 = 0 := by decide
  have e1 : (([0, 0, 1, 0, 0, 1] : List ℚ)).getD 1 0 = 0 := by decide
  have e2 : (([0, 0, 1, 0, 0, 1] : List ℚ)).getD 2 0 = 1 := by decide
  have e3 : (([0, 0, 1, 0, 0, 1] : List ℚ)).getD 3 0 = 0 := by decide
  have e4 : (([0, 0, 1, 0, 0, 1] : List ℚ)).getD 4 0 = 0 := by decide
  have e5 : (([0, 0, 1, 0, 0, 1] : List ℚ)).getD 5 0 = 1 := by decide
  have q0 : (([0, 0, 0, 1, 0, 0, 0, 1, 0] : List ℚ)).getD 0 0 = 0 := by decide
  have q1 : (([0, 0, 0, 1, 0, 0, 0, 1, 0] : List ℚ)).getD 1 0 = 0 := by decide
  have q2 : (([0, 0, 0, 1, 0, 0, 0, 1, 0] : List ℚ)).getD 2 0 = 0 := by decide
  have q3 : (([0, 0, 0, 1, 0, 0, 0, 1, 0] : List ℚ)).getD 3 0 = 1 := by decide
  have q4 : (([0, 0, 0, 1, 0, 0, 0, 1, 0] : List ℚ)).getD 4 0 = 0 := by decide
  have q5 : (([0, 0, 0, 1, 0, 0, 0, 1, 0] : List ℚ)).getD 5 0 = 0 := by decide
  have q6 : (([0, 0, 0, 1, 0, 0, 0, 1, 0] : List ℚ)).getD 6 0 = 0 := by decide
  have q7 : (([0, 0, 0, 1, 0, 0, 0, 1, 0] : List ℚ)).getD 7 0 = 1 := by decide
  have q8 : (([0, 0, 0, 1, 0, 0, 0, 1, 0] : List ℚ)).getD 8 0 = 0 := by decide
  refine ⟨by decide, by decide, ?_, ?_⟩
  · rw [h.1]
    simp only [e0, e1, e2, e3, e4, e5, q0, q1, q2, q3, q4, q5, q6, q7, q8,
      Rat.cast_zero, Rat.cast_one, emptyGeometryData]
    norm_num [Real.sqrt_one]
  · rw [h.2.1]
    simp only [e0, e1, e2, e3, e4, e5, q0, q1, q2, q3, q4, q5, q6, q7, q8,
      Rat.cast_zero, Rat.cast_one, emptyGeometryData]
    norm_num [Real.sqrt_one]

end OBJGeom
